import Mathlib

/-!
Shallow embedding of the per-user session lifecycle and fan-out notification
subsystem of the sandbox-on-aws demo backend, together with proofs of the
spec claims about it.

Python dicts are modelled as association lists with dict semantics
(assignment updates in place or appends, `del` removes the key, `get`
returns the first binding).  WebSocket connection objects are modelled by
natural-number identities; transport failure of `conn.send(...)` is a
parameter `fails : Nat → Msg → Bool` saying which sends raise.
Wall-clock instants are abstract integers.
-/

namespace SandboxDemo

/-- Lookup `d[k]` on a Python dict modelled as an association list. -/
def dictGet {α β : Type} [DecidableEq α] (k : α) : List (α × β) → Option β
  | [] => none
  | (k', v) :: rest => if k' = k then some v else dictGet k rest

/-- Assignment `d[k] = v` on a Python dict: update the existing binding in place,
otherwise append a new binding at the end (dict insertion order). -/
def dictSet {α β : Type} [DecidableEq α] (k : α) (v : β) : List (α × β) → List (α × β)
  | [] => [(k, v)]
  | (k', v') :: rest => if k' = k then (k, v) :: rest else (k', v') :: dictSet k v rest

/-- Deletion `del d[k]` on a Python dict: drop the binding of `k` (a dict never
holds two bindings of one key, so dropping every match is the same). -/
def dictDel {α β : Type} [DecidableEq α] (k : α) : List (α × β) → List (α × β)
  | [] => []
  | (k', v) :: rest => if k' = k then dictDel k rest else (k', v) :: dictDel k rest

/-- A JSON message envelope: a `type` discriminator, a free-form payload and
an optional `"timestamp"` key (`_queue_message` adds one when absent). -/
structure Msg where
  typ : String
  data : String
  timestamp : Option Int
deriving DecidableEq, Repr

/-- State of `UserConnectionManager` (user_connection_manager.py):
forward map `session_id -> list of connections`, reverse map
`connection -> session_id`, and per-session pending message queues. -/
structure UserConnectionManager where
  user_connections : List (String × List Nat)
  connection_sessions : List (Nat × String)
  user_message_queues : List (String × List Msg)
deriving DecidableEq, Repr

/-- The freshly constructed manager: all three dicts empty. -/
def UserConnectionManager.init : UserConnectionManager := ⟨[], [], []⟩

/-- Model of `UserConnectionManager._queue_message`: create the queue if absent, add a
timestamp to a copy of the message when it has none, append, and keep only
the newest 1000 entries. -/
def queueMessage (now : Int) (sid : String) (m : Msg)
    (st : UserConnectionManager) : UserConnectionManager :=
  let qs := match dictGet sid st.user_message_queues with
    | none => dictSet sid [] st.user_message_queues
    | some _ => st.user_message_queues
  let q := (dictGet sid qs).getD []
  let stamped := if m.timestamp.isNone then { m with timestamp := some now } else m
  let q' := q ++ [stamped]
  let q'' := if q'.length > 1000 then q'.drop (q'.length - 1000) else q'
  { st with user_message_queues := dictSet sid q'' qs }

/-- Model of `UserConnectionManager.disconnect`: look up the connection's session in
the reverse map; if registered, `list.remove` it from the forward entry
(first occurrence; a `ValueError` is swallowed and then the emptiness check
is skipped), delete the forward entry when it became empty, and delete the
reverse binding.  An unregistered connection is a no-op. -/
def disconnect (ws : Nat) (st : UserConnectionManager) : UserConnectionManager :=
  match dictGet ws st.connection_sessions with
  | none => st
  | some sid =>
    let st1 :=
      match dictGet sid st.user_connections with
      | none => st
      | some lst =>
        if ws ∈ lst then
          let lst' := lst.erase ws
          if lst' = [] then
            { st with user_connections := dictDel sid st.user_connections }
          else
            { st with user_connections := dictSet sid lst' st.user_connections }
        else st
    { st1 with connection_sessions := dictDel ws st1.connection_sessions }

/-- Model of `UserConnectionManager.send_json_to_user`: with zero attached connections
the message is queued; otherwise it is sent to every attached connection,
connections whose send raises are collected and then `disconnect`ed.
Returns the new state and the (connection, message) deliveries made. -/
def sendJsonToUser (fails : Nat → Msg → Bool) (now : Int) (sid : String) (m : Msg)
    (st : UserConnectionManager) : UserConnectionManager × List (Nat × Msg) :=
  let conns := (dictGet sid st.user_connections).getD []
  if conns = [] then
    (queueMessage now sid m st, [])
  else
    let delivered := (conns.filter (fun c => !fails c m)).map (fun c => (c, m))
    let disconnected := conns.filter (fun c => fails c m)
    (disconnected.foldl (fun s c => disconnect c s) st, delivered)

/-- Model of `UserConnectionManager._send_queued_messages`: send each queued message
to the new connection, `break`ing at the first send that raises, then reset
the session's queue to the empty list.  Returns the new state and the
messages actually delivered to the connection. -/
def sendQueuedMessages (fails : Nat → Msg → Bool) (ws : Nat) (sid : String)
    (st : UserConnectionManager) : UserConnectionManager × List Msg :=
  let q := (dictGet sid st.user_message_queues).getD []
  let delivered := q.takeWhile (fun m => !fails ws m)
  let st' :=
    match dictGet sid st.user_message_queues with
    | none => st
    | some _ => { st with user_message_queues := dictSet sid [] st.user_message_queues }
  (st', delivered)

/-- Model of `UserConnectionManager.connect`: accept the transport, and when the
session id is not yet in `user_connections`, initialise **both** its
forward entry and its message queue to `[]`; then append the connection
to the forward entry, point the reverse map at the session, and flush the
queued messages to the new connection. -/
def connect (fails : Nat → Msg → Bool) (ws : Nat) (sid : String)
    (st : UserConnectionManager) : UserConnectionManager × List Msg :=
  let st1 :=
    if (dictGet sid st.user_connections).isNone then
      { st with
          user_connections := dictSet sid [] st.user_connections,
          user_message_queues := dictSet sid [] st.user_message_queues }
    else st
  let conns := (dictGet sid st1.user_connections).getD []
  let st2 :=
    { st1 with
        user_connections := dictSet sid (conns ++ [ws]) st1.user_connections,
        connection_sessions := dictSet ws sid st1.connection_sessions }
  sendQueuedMessages fails ws sid st2

/-- State of the app-level `ConnectionManager` (app.py): a flat list of all
accepted connections plus the session-aware forward map (a Python `set` per
session, modelled as a duplicate-free list) and reverse map. -/
structure ConnectionManager where
  active_connections : List Nat
  session_connections : List (String × List Nat)
  connection_sessions : List (Nat × String)
deriving DecidableEq, Repr

/-- The freshly constructed app-level manager. -/
def ConnectionManager.init : ConnectionManager := ⟨[], [], []⟩

/-- Model of `ConnectionManager.associate_session`: create the session's set if
absent, `set.add` the connection to it, and point the reverse map at the
new session id.  The connection is not removed from any previous session's
set, and re-association is not rejected. -/
def associateSession (ws : Nat) (sid : String) (cm : ConnectionManager) :
    ConnectionManager :=
  let scs :=
    if (dictGet sid cm.session_connections).isNone then
      dictSet sid [] cm.session_connections
    else cm.session_connections
  let s := (dictGet sid scs).getD []
  let s' := if ws ∈ s then s else s ++ [ws]
  { cm with
      session_connections := dictSet sid s' scs,
      connection_sessions := dictSet ws sid cm.connection_sessions }

/-- Model of `ConnectionManager.connect`: accept the transport, append to
`active_connections`, and associate with the session when an id is given. -/
def cmConnect (ws : Nat) (sidOpt : Option String) (cm : ConnectionManager) :
    ConnectionManager :=
  let cm1 := { cm with active_connections := cm.active_connections ++ [ws] }
  match sidOpt with
  | none => cm1
  | some sid => associateSession ws sid cm1

/-- A `UserSession` record (user_session_manager.py): identity and
ownership metadata, the exclusively owned sandbox handle, and the activity
timestamps.  The sandbox handle is an opaque id. -/
structure UserSession where
  session_id : String
  username : String
  created_at : Int
  last_activity : Int
  sandbox_instance : Option Nat
  stream_url : Option String
  current_command : Option Nat
  websocket_connections : List Nat
  log_buffer : List String
deriving DecidableEq, Repr

/-- Model of `UserSession.is_expired`: `now - last_activity > timeout` (the Python
code compares `datetime` differences; times here are abstract instants). -/
def UserSession.is_expired (now : Int) (timeout : Int) (s : UserSession) : Bool :=
  now - s.last_activity > timeout

/-- Model of `UserSession.cleanup_resources`: if a sandbox handle is present its
`kill()` is attempted (any exception from `kill` is caught and logged, so
the outcome of the call — the `killRaises` parameter — does not affect the
resulting record), the handle is cleared, and the other resources are
reset.  Returns the cleaned record and the list of sandbox-kill
invocations made (tagged by session id). -/
def UserSession.cleanup_resources (killRaises : Bool) (s : UserSession) :
    UserSession × List String :=
  let kills := match s.sandbox_instance with
    | some _ => [s.session_id]
    | none => []
  ({ s with
      sandbox_instance := none,
      stream_url := none,
      current_command := none,
      websocket_connections := [],
      log_buffer := [] }, kills)

/-- State of `UserSessionManager`: the session dict plus the configured
expiry timeout (`self.session_timeout`). -/
structure UserSessionManager where
  sessions : List (String × UserSession)
  session_timeout : Int
deriving DecidableEq, Repr

/-- Outcome of `UserSessionManager.remove_session`: the returned boolean,
the new store, the sessions whose `cleanup_resources` ran, and the
sandbox-kill invocations made. -/
structure RemoveResult where
  found : Bool
  store : UserSessionManager
  cleanups : List String
  kills : List String
deriving DecidableEq, Repr

/-- Model of `UserSessionManager.remove_session`: if the id is present, run
`cleanup_resources` on the record (whose exceptions are all caught, so
the deletion below always happens), delete the record and return true;
otherwise return false. -/
def remove_session (killRaises : Bool) (sid : String) (st : UserSessionManager) :
    RemoveResult :=
  match dictGet sid st.sessions with
  | some s =>
    let c := UserSession.cleanup_resources killRaises s
    ⟨true, { st with sessions := dictDel sid st.sessions }, [sid], c.2⟩
  | none => ⟨false, st, [], []⟩

/-- Model of `UserSessionManager.get_session`: look the id up; when found, update
`last_activity` to now and return the record, else return `none`. -/
def get_session (now : Int) (sid : String) (st : UserSessionManager) :
    Option UserSession × UserSessionManager :=
  match dictGet sid st.sessions with
  | none => (none, st)
  | some s =>
    let s' := { s with last_activity := now }
    (some s', { st with sessions := dictSet sid s' st.sessions })

/-- The loop of `cleanup_expired_sessions` over the collected expired ids:
`remove_session` each in order, accumulating the effects. -/
def sweepList (killRaises : Bool) : List String → UserSessionManager →
    UserSessionManager × List String × List String
  | [], st => (st, [], [])
  | sid :: rest, st =>
    let r := remove_session killRaises sid st
    let r' := sweepList killRaises rest r.store
    (r'.1, r.cleanups ++ r'.2.1, r.kills ++ r'.2.2)

/-- Model of `UserSessionManager.cleanup_expired_sessions`: collect the ids of all
records that `is_expired` against `self.session_timeout`, then
`remove_session` each.  Returns the new store, the cleanup invocations and
the kill invocations. -/
def cleanup_expired_sessions (killRaises : Bool) (now : Int)
    (st : UserSessionManager) : UserSessionManager × List String × List String :=
  let expired := (st.sessions.filter
    (fun p => p.2.is_expired now st.session_timeout)).map (fun p => p.1)
  sweepList killRaises expired st

/-- An `asyncio.Task` handle: an identity plus whether `done()` holds. -/
structure PyTask where
  tid : Nat
  done : Bool
deriving DecidableEq, Repr

/-- A `ComputerUseSession` (sandbox_computer_use.py): sandbox and agent
handles are opaque ids, `managerSet` models whether `session.manager` has
been constructed. -/
structure ComputerUseSession where
  session_id : String
  desktop : Option Nat
  agent : Option Nat
  current_task : Option PyTask
  managerSet : Bool
  last_activity : Int
  stop_requested : Bool
deriving DecidableEq, Repr

/-- The `ComputerUseSession.__init__` state for a fresh session id. -/
def ComputerUseSession.new (sid : String) (now : Int) : ComputerUseSession :=
  ⟨sid, none, none, none, false, now, false⟩

/-- State of the computer-use `SessionManager`: its session dict. -/
structure CUStore where
  sessions : List (String × ComputerUseSession)
deriving DecidableEq, Repr

/-- Computer-use `SessionManager.get_session`: look up and, when found,
update the record's activity timestamp. -/
def cuGetSession (now : Int) (sid : String) (st : CUStore) :
    Option ComputerUseSession × CUStore :=
  match dictGet sid st.sessions with
  | none => (none, st)
  | some s =>
    let s' := { s with last_activity := now }
    (some s', { st with sessions := dictSet sid s' st.sessions })

/-- The dict result of one of the route-level task functions:
`{"status": "success"|"error", "message": ...}`. -/
inductive RunResult where
  | ok (msg : String)
  | err (msg : String)
deriving DecidableEq, Repr

/-- A Notifier envelope `{"type": ..., "data": ...}` as passed to
`manager.send_to_session`. -/
structure Envelope where
  typ : String
  data : String
deriving DecidableEq, Repr

/-- Everything `run_computer_use_task` produces: the final store, the
returned dict, the background tasks spawned (`asyncio.create_task` /
`background_tasks.add_task`, by task id), and the `send_to_session`
collaborator calls made (session id, envelope). -/
structure CUResult where
  store : CUStore
  result : RunResult
  spawned : List Nat
  events : List (String × Envelope)
deriving DecidableEq, Repr

/-- Model of `run_computer_use_task` (sandbox_computer_use.py lines 303-362).
External collaborators are parameters: `startDesktop` abstracts
`start_computer_desktop` (its store effect and whether it succeeded), and
`connectSandbox` abstracts `Sandbox(sandbox_id=...)` (`none` = the
constructor raised).  `freshSid` is the id `create_session` would mint and
`newTaskId` the identity of a newly created task.  The control flow —
manager guard, session resolution with the double `get_session`, the
desktop-start / sandbox-connect branches, the agent guard, the
already-running guard, and the launch — follows the source. -/
def run_computer_use_task (now : Int) (managerInit : Bool) (query : String)
    (sidArg : Option String) (sandboxIdArg : Option Nat)
    (freshSid : String) (newTaskId : Nat)
    (startDesktop : CUStore → String → CUStore × Bool)
    (connectSandbox : Nat → Option Nat)
    (useBackgroundTasks : Bool)
    (st : CUStore) : CUResult :=
  if ¬ managerInit then ⟨st, .err "Manager not initialized", [], []⟩
  else
    let sidSt : String × CUStore :=
      match sidArg with
      | none =>
        (freshSid,
         { st with sessions := dictSet freshSid (ComputerUseSession.new freshSid now) st.sessions })
      | some sid =>
        let g := cuGetSession now sid st
        match g.1 with
        | none =>
          (sid,
           { g.2 with sessions := dictSet sid (ComputerUseSession.new sid now) g.2.sessions })
        | some _ => (sid, g.2)
    let sid := sidSt.1
    let g2 := cuGetSession now sid sidSt.2
    match g2.1 with
    | none => ⟨g2.2, .err ("Session " ++ sid ++ " not found"), [], []⟩
    | some s =>
      let branch : CUStore × Option RunResult :=
        match s.desktop with
        | none =>
          let d := startDesktop g2.2 sid
          if d.2 then (d.1, none) else (d.1, some (.err "Failed to start desktop"))
        | some dId =>
          match sandboxIdArg with
          | some sb =>
            if sb ≠ dId then
              let s1 := if ¬ s.managerSet then { s with managerSet := true } else s
              match connectSandbox sb with
              | some d' =>
                let s2 := { s1 with desktop := some d', agent := some d' }
                ({ g2.2 with sessions := dictSet sid s2 g2.2.sessions }, none)
              | none =>
                ({ g2.2 with sessions := dictSet sid s1 g2.2.sessions },
                 some (.err "Failed to connect to sandbox"))
            else (g2.2, none)
          | none => (g2.2, none)
      match branch.2 with
      | some r => ⟨branch.1, r, [], []⟩
      | none =>
        let s2 := (dictGet sid branch.1.sessions).getD (ComputerUseSession.new sid now)
        if s2.agent.isNone then
          ⟨branch.1, .err "No computer use agent available", [], []⟩
        else if (match s2.current_task with
                 | some t => !t.done
                 | none => false) then
          ⟨branch.1, .err "A computer use task is already running in this session", [], []⟩
        else
          let evs := [(sid, Envelope.mk "info" ("Running computer use task: " ++ query))]
          if useBackgroundTasks then
            ⟨branch.1, .ok "Computer use task started", [newTaskId], evs⟩
          else
            ⟨{ branch.1 with
                sessions := dictSet sid { s2 with current_task := some ⟨newTaskId, false⟩ } branch.1.sessions },
             .ok "Computer use task started", [newTaskId], evs⟩

/-- How the awaited `session.agent.process_user_message(...)` call settles:
normal result, unhandled exception, or `asyncio.CancelledError`. -/
inductive TaskOutcome where
  | ok (res : String)
  | exc (msg : String)
  | cancelled
deriving DecidableEq, Repr

/-- Model of `run_computer_task_in_background` (sandbox_computer_use.py lines
365-416).  Returns the final store, the `send_to_session` calls made in
order, and the exception the function re-raises (`some "CancelledError"`
only on the cancellation path; the generic `except` swallows everything
else).  The `finally` block re-reads the session and, when present, clears
`current_task` and resets `stop_requested`. -/
def run_computer_task_in_background (now : Int) (sid : String)
    (selfTaskId : Nat) (outcome : TaskOutcome) (st : CUStore) :
    CUStore × List (String × Envelope) × Option String :=
  let body : CUStore × List (String × Envelope) × Option String :=
    let g := cuGetSession now sid st
    match g.1 with
    | none => (g.2, [], none)
    | some s =>
      match s.agent with
      | none => (g.2, [(sid, Envelope.mk "error" "No computer agent available")], none)
      | some _ =>
        let s1 := { s with stop_requested := false,
                           current_task := some ⟨selfTaskId, false⟩ }
        let st1 := { g.2 with sessions := dictSet sid s1 g.2.sessions }
        let evs0 := [(sid, Envelope.mk "info" "Starting computer use task...")]
        let s2 := if ¬ s1.managerSet then { s1 with managerSet := true } else s1
        let st2 := { st1 with sessions := dictSet sid s2 st1.sessions }
        match outcome with
        | .ok r =>
          (st2, evs0 ++ [(sid, Envelope.mk "task_completed" ("Task completed: " ++ r))], none)
        | .cancelled =>
          (st2, evs0 ++ [(sid, Envelope.mk "info" "Computer task was stopped")],
           some "CancelledError")
        | .exc m =>
          (st2, evs0 ++ [(sid, Envelope.mk "error" ("Error in computer task: " ++ m))], none)
  let gf := cuGetSession now sid body.1
  let stF :=
    match gf.1 with
    | none => gf.2
    | some s =>
      { gf.2 with sessions := dictSet sid { s with current_task := none, stop_requested := false } gf.2.sessions }
  (stF, body.2.1, body.2.2)

/-! ### Concrete states used to instantiate the theorems -/

/-- A registry with one session `"s"` holding connections `0, 1` and one
queued message. -/
def ucmTwoConns : UserConnectionManager :=
  ⟨[("s", [0, 1])], [(0, "s"), (1, "s")], [("s", [⟨"info", "kept", some 1⟩])]⟩

/-- A registry with one session `"s"` holding connections `0, 1, 2` and an
empty queue. -/
def ucmThreeConns : UserConnectionManager :=
  ⟨[("s", [0, 1, 2])], [(0, "s"), (1, "s"), (2, "s")], [("s", [])]⟩

/-- A registry with session `"s"` attached to connection `3` and three
queued messages. -/
def ucmQueuedThree : UserConnectionManager :=
  ⟨[("s", [3])], [(3, "s")],
   [("s", [⟨"a", "1", some 1⟩, ⟨"b", "2", some 2⟩, ⟨"c", "3", some 3⟩])]⟩

/-- A session record `"here"` with a stale activity timestamp and no
sandbox. -/
def hereSession : UserSession := ⟨"here", "u", 0, 3, none, none, none, [], []⟩

/-- A session store holding only `hereSession`, with timeout 60. -/
def storeHere : UserSessionManager := ⟨[("here", hereSession)], 60⟩

/-- A stale record owning sandbox `11` and a fresh record owning sandbox
`12`. -/
def oldSession : UserSession := ⟨"old", "u", 0, 10, some 11, none, none, [], []⟩

/-- A fresh session record owning sandbox `12`. -/
def newSession : UserSession := ⟨"new", "v", 0, 90, some 12, none, none, [], []⟩

/-- A store with one expired (`oldSession`) and one live (`newSession`)
record, timeout 60. -/
def storeMixed : UserSessionManager := ⟨[("old", oldSession), ("new", newSession)], 60⟩

/-- A computer-use session with desktop `1`, agent `2` and a running task
`5`. -/
def cuBusy : ComputerUseSession := ⟨"c1", some 1, some 2, some ⟨5, false⟩, true, 0, false⟩

/-- A computer-use store holding only `cuBusy` under `"c1"`. -/
def cuStoreBusy : CUStore := ⟨[("c1", cuBusy)]⟩

/-! ### Association-list lemmas -/

theorem dictGet_set_self {α β : Type} [DecidableEq α] (k : α) (v : β)
    (l : List (α × β)) : dictGet k (dictSet k v l) = some v := by
  induction l with
  | nil => simp [dictGet, dictSet]
  | cons p rest ih =>
    by_cases h : p.1 = k
    · simp [dictGet, dictSet, h]
    · simp [dictGet, dictSet, h, ih]

theorem dictGet_set_ne {α β : Type} [DecidableEq α] {k k' : α} (v : β)
    (l : List (α × β)) (h : k' ≠ k) :
    dictGet k' (dictSet k v l) = dictGet k' l := by
  have hkk : k ≠ k' := Ne.symm h
  induction l with
  | nil => simp [dictGet, dictSet, hkk]
  | cons p rest ih =>
    by_cases hp : p.1 = k
    · subst hp
      simp [dictGet, dictSet, hkk]
    · simp [dictGet, dictSet, hp, ih]

theorem dictGet_del_self {α β : Type} [DecidableEq α] (k : α)
    (l : List (α × β)) : dictGet k (dictDel k l) = none := by
  induction l with
  | nil => simp [dictGet, dictDel]
  | cons p rest ih =>
    by_cases h : p.1 = k
    · simpa [dictDel, h] using ih
    · simpa [dictDel, h, dictGet] using ih

theorem dictGet_del_ne {α β : Type} [DecidableEq α] {k k' : α}
    (l : List (α × β)) (h : k' ≠ k) :
    dictGet k' (dictDel k l) = dictGet k' l := by
  induction l with
  | nil => simp [dictGet, dictDel]
  | cons p rest ih =>
    by_cases hp : p.1 = k
    · have hkk' : ¬ k = k' := Ne.symm h
      simpa [dictDel, hp, dictGet, hkk'] using ih
    · simp [dictDel, hp, dictGet, ih]

theorem dictGet_eq_some_of_mem {α β : Type} [DecidableEq α] {k : α} {v : β}
    {l : List (α × β)} (hmem : (k, v) ∈ l)
    (hnd : (l.map Prod.fst).Nodup) : dictGet k l = some v := by
  induction l with
  | nil => cases hmem
  | cons p rest ih =>
    simp only [List.map_cons, List.nodup_cons] at hnd
    rcases List.mem_cons.mp hmem with h | h
    · subst h
      simp [dictGet]
    · have hk : p.1 ≠ k := by
        intro hk
        exact hnd.1 (hk ▸ (List.mem_map.mpr ⟨(k, v), h, rfl⟩))
      simp [dictGet, hk]
      exact ih h hnd.2

theorem takeWhile_middle_false {α : Type} (p : α → Bool) (pre : List α)
    (bad : α) (post : List α) (hpre : ∀ x ∈ pre, p x = true)
    (hbad : p bad = false) :
    (pre ++ bad :: post).takeWhile p = pre := by
  induction pre with
  | nil => simp [List.takeWhile, hbad]
  | cons a rest ih =>
    have ha : p a = true := hpre a (by simp)
    simp only [List.cons_append, List.takeWhile_cons, ha, if_true]
    rw [ih (fun x hx => hpre x (by simp [hx]))]

/-! ### Helper lemmas about the operations -/

theorem disconnect_queues (ws : Nat) (st : UserConnectionManager) :
    (disconnect ws st).user_message_queues = st.user_message_queues := by
  unfold disconnect
  repeat' split
  all_goals (try rfl)
  all_goals (show (if _ then _ else _ : UserConnectionManager).user_message_queues = _)
  all_goals (split <;> rfl)

theorem foldl_disconnect_queues (cs : List Nat) (st : UserConnectionManager) :
    (cs.foldl (fun s c => disconnect c s) st).user_message_queues =
      st.user_message_queues := by
  induction cs generalizing st with
  | nil => rfl
  | cons c rest ih => rw [List.foldl_cons, ih, disconnect_queues]

theorem associateSession_connection_sessions (ws : Nat) (sid : String)
    (cm : ConnectionManager) :
    (associateSession ws sid cm).connection_sessions =
      dictSet ws sid cm.connection_sessions := by
  unfold associateSession
  cases (dictGet sid cm.session_connections).isNone <;> rfl

theorem associateSession_other_session (ws : Nat) {sid k : String}
    (cm : ConnectionManager) (h : k ≠ sid) :
    dictGet k (associateSession ws sid cm).session_connections =
      dictGet k cm.session_connections := by
  unfold associateSession
  cases hb : (dictGet sid cm.session_connections).isNone <;>
    simp only [hb, Bool.false_eq_true, if_false, if_true]
  · rw [dictGet_set_ne _ _ h]
  · rw [dictGet_set_ne _ _ h, dictGet_set_ne _ _ h]

theorem mem_add_if {α : Type} [DecidableEq α] (a : α) (l : List α) :
    a ∈ (if a ∈ l then l else l ++ [a]) := by
  by_cases h : a ∈ l <;> simp [h]

theorem associateSession_self_mem (ws : Nat) (sid : String)
    (cm : ConnectionManager) :
    ws ∈ (dictGet sid (associateSession ws sid cm).session_connections).getD [] := by
  unfold associateSession
  cases hb : (dictGet sid cm.session_connections).isNone <;>
    simp only [hb, Bool.false_eq_true, if_false, if_true] <;>
    rw [dictGet_set_self] <;> exact mem_add_if _ _

/-! ### The claims -/

/-- C1: the claim says queue-then-flush: K messages sent to a session with
zero attached connections are all delivered, in order, to the next
connection that attaches, and the queue is then empty.  The code violates
this: `connect` re-initialises `user_message_queues[session_id]` to `[]`
whenever the session id is absent from `user_connections` — which is
exactly the zero-attached-connections case — so the flush always sees an
empty queue and every queued message is lost.  This theorem evaluates the
code at the failing input: one message queued for session `"s"`, then one
connect with a perfectly reliable transport; the queue did hold the
message, yet the new connection receives nothing. -/
theorem C1_connect_wipes_queue :
    (sendJsonToUser (fun _ _ => false) 5 "s" ⟨"info", "starting", none⟩
        UserConnectionManager.init).1.user_message_queues =
      [("s", [⟨"info", "starting", some 5⟩])] ∧
    (connect (fun _ _ => false) 0 "s"
        (sendJsonToUser (fun _ _ => false) 5 "s" ⟨"info", "starting", none⟩
          UserConnectionManager.init).1).2 = [] ∧
    dictGet "s" (connect (fun _ _ => false) 0 "s"
        (sendJsonToUser (fun _ _ => false) 5 "s" ⟨"info", "starting", none⟩
          UserConnectionManager.init).1).1.user_message_queues = some [] := by
  refine ⟨rfl, rfl, rfl⟩

/-- C2, counterexample: the claim says a connection is a member of at most
one session's set in every reachable registry state.  Reachable state
refuting it: connect connection `0` with session `"a"`, then associate it
with session `"b"` — it is now in both sessions' sets. -/
theorem C2_counterexample :
    0 ∈ (dictGet "a" (associateSession 0 "b"
          (cmConnect 0 (some "a") ConnectionManager.init)).session_connections).getD [] ∧
    0 ∈ (dictGet "b" (associateSession 0 "b"
          (cmConnect 0 (some "a") ConnectionManager.init)).session_connections).getD [] ∧
    "a" ≠ "b" := by
  refine ⟨by decide, by decide, by decide⟩

/-- C2, amended: re-associating an already-associated connection with a new
session id adds it to the new session's set and overwrites the reverse
mapping, but neither removes it from the previous session's set nor
rejects the request, so the connection ends up in both sessions' forward
sets; only the reverse map still associates it with a single session. -/
theorem C2_reassociation_keeps_previous_set
    (cm : ConnectionManager) (ws : Nat) (a b : String) (lst : List Nat)
    (ha : dictGet a cm.session_connections = some lst) (hmem : ws ∈ lst)
    (hne : a ≠ b) :
    ws ∈ (dictGet a (associateSession ws b cm).session_connections).getD [] ∧
    ws ∈ (dictGet b (associateSession ws b cm).session_connections).getD [] ∧
    dictGet ws (associateSession ws b cm).connection_sessions = some b := by
  refine ⟨?_, associateSession_self_mem ws b cm, ?_⟩
  · rw [associateSession_other_session ws cm hne, ha]
    exact hmem
  · rw [associateSession_connection_sessions, dictGet_set_self]

/-- C2, witness for the amended theorem at a concrete registry state. -/
theorem C2_reassociation_witness :
    dictGet "a" (cmConnect 0 (some "a") ConnectionManager.init).session_connections
        = some [0] ∧
    (0 : Nat) ∈ [0] ∧ "a" ≠ "b" ∧
    (0 ∈ (dictGet "a" (associateSession 0 "b"
          (cmConnect 0 (some "a") ConnectionManager.init)).session_connections).getD [] ∧
     0 ∈ (dictGet "b" (associateSession 0 "b"
          (cmConnect 0 (some "a") ConnectionManager.init)).session_connections).getD [] ∧
     dictGet 0 (associateSession 0 "b"
          (cmConnect 0 (some "a") ConnectionManager.init)).connection_sessions = some "b") :=
  ⟨by decide, by decide, by decide,
   C2_reassociation_keeps_previous_set _ 0 "a" "b" [0] (by decide) (by decide) (by decide)⟩

/-- C5: during a fan-out send to a session with at least one attached
connection, every connection whose send raises is pruned exactly as if
`disconnect` had been called for it, delivery still reaches every
non-failing attached connection, and no error event is produced (in
particular the session's pending queue is untouched). -/
theorem C5_transport_failure_pruning (fails : Nat → Msg → Bool) (now : Int)
    (sid : String) (m : Msg) (st : UserConnectionManager) (conns : List Nat)
    (hconn : dictGet sid st.user_connections = some conns) (hne : conns ≠ []) :
    (sendJsonToUser fails now sid m st).1 =
        (conns.filter (fun c => fails c m)).foldl (fun s c => disconnect c s) st ∧
    (sendJsonToUser fails now sid m st).2 =
        (conns.filter (fun c => !fails c m)).map (fun c => (c, m)) ∧
    (sendJsonToUser fails now sid m st).1.user_message_queues =
        st.user_message_queues := by
  refine ⟨?_, ?_, ?_⟩ <;> simp only [sendJsonToUser, hconn, Option.getD_some, hne, if_false]
  · exact foldl_disconnect_queues _ _

/-- C5 witness: session `"s"` has connections `0, 1, 2`; sends to `1`
raise.  Connection `1` is pruned as by `disconnect`, `0` and `2` still
receive the message, and the pending queue is untouched. -/
theorem C5_transport_failure_witness :
    dictGet "s" ucmThreeConns.user_connections = some [0, 1, 2] ∧
    ([0, 1, 2] : List Nat) ≠ [] ∧
    ((sendJsonToUser (fun c _ => c = 1) 7 "s" ⟨"stdout", "x", none⟩ ucmThreeConns).1 =
      ([0, 1, 2].filter (fun c => (fun c (_ : Msg) => decide (c = 1)) c ⟨"stdout", "x", none⟩)).foldl
        (fun s c => disconnect c s) ucmThreeConns ∧
     (sendJsonToUser (fun c _ => c = 1) 7 "s" ⟨"stdout", "x", none⟩ ucmThreeConns).2 =
      ([0, 1, 2].filter (fun c => !(fun c (_ : Msg) => decide (c = 1)) c ⟨"stdout", "x", none⟩)).map
        (fun c => (c, (⟨"stdout", "x", none⟩ : Msg))) ∧
     (sendJsonToUser (fun c _ => c = 1) 7 "s" ⟨"stdout", "x", none⟩ ucmThreeConns).1.user_message_queues =
      ucmThreeConns.user_message_queues) :=
  ⟨by decide, by decide,
   C5_transport_failure_pruning (fun c _ => c = 1) 7 "s" ⟨"stdout", "x", none⟩
     ucmThreeConns [0, 1, 2] (by decide) (by decide)⟩

/-- C6: `disconnect` of a registered connection removes it from its
session's connection list in the forward map, deletes the forward entry
when the list became empty, and leaves the pending-message queues of every
session — in particular this one — unchanged. -/
theorem C6_disconnect_frame (st : UserConnectionManager) (ws : Nat)
    (sid : String) (lst : List Nat)
    (hrev : dictGet ws st.connection_sessions = some sid)
    (hfwd : dictGet sid st.user_connections = some lst) (hmem : ws ∈ lst) :
    (disconnect ws st).user_message_queues = st.user_message_queues ∧
    dictGet ws (disconnect ws st).connection_sessions = none ∧
    (lst.erase ws = [] →
       dictGet sid (disconnect ws st).user_connections = none) ∧
    (lst.erase ws ≠ [] →
       dictGet sid (disconnect ws st).user_connections = some (lst.erase ws)) := by
  refine ⟨disconnect_queues ws st, ?_, ?_, ?_⟩ <;>
    simp only [disconnect, hrev, hfwd, hmem, if_true]
  · by_cases he : lst.erase ws = [] <;> simp [he, dictGet_del_self]
  · intro he
    simp [he, dictGet_del_self]
  · intro he
    simp [he, dictGet_set_self]

/-- C6 witness: two connections on session `"s"`; disconnecting `0` leaves
`1` attached and preserves the queued message. -/
theorem C6_disconnect_witness :
    dictGet 0 ucmTwoConns.connection_sessions = some "s" ∧
    dictGet "s" ucmTwoConns.user_connections = some [0, 1] ∧
    (0 : Nat) ∈ [0, 1] ∧
    ((disconnect 0 ucmTwoConns).user_message_queues = ucmTwoConns.user_message_queues ∧
     dictGet 0 (disconnect 0 ucmTwoConns).connection_sessions = none ∧
     (([0, 1] : List Nat).erase 0 = [] →
       dictGet "s" (disconnect 0 ucmTwoConns).user_connections = none) ∧
     (([0, 1] : List Nat).erase 0 ≠ [] →
       dictGet "s" (disconnect 0 ucmTwoConns).user_connections =
         some (([0, 1] : List Nat).erase 0))) :=
  ⟨by decide, by decide, by decide,
   C6_disconnect_frame ucmTwoConns 0 "s" [0, 1] (by decide) (by decide) (by decide)⟩

/-- C9: `get_session` of an absent id returns `None` and changes nothing,
`disconnect` of an unregistered connection is a no-op on the whole
registry state, and `get_session` of a present id returns the record with
its `last_activity` refreshed (and stores the refreshed record). -/
theorem C9_unknown_id_safety (now : Int) (sid : String)
    (st : UserSessionManager) (ws : Nat) (ucm : UserConnectionManager)
    (s : UserSession) :
    (dictGet sid st.sessions = none → get_session now sid st = (none, st)) ∧
    (dictGet ws ucm.connection_sessions = none → disconnect ws ucm = ucm) ∧
    (dictGet sid st.sessions = some s →
       (get_session now sid st).1 = some { s with last_activity := now } ∧
       dictGet sid (get_session now sid st).2.sessions =
         some { s with last_activity := now }) := by
  refine ⟨?_, ?_, ?_⟩
  · intro h
    simp [get_session, h]
  · intro h
    simp [disconnect, h]
  · intro h
    simp [get_session, h, dictGet_set_self]

/-- C9 witness: an absent id (`"gone"`), an unregistered connection (`4`),
and a present record (`"here"`) with a stale timestamp, with each
hypothesis discharged. -/
theorem C9_unknown_id_witness :
    get_session 9 "gone" storeHere = (none, storeHere) ∧
    disconnect 4 ucmTwoConns = ucmTwoConns ∧
    ((get_session 9 "here" storeHere).1 = some { hereSession with last_activity := 9 } ∧
     dictGet "here" (get_session 9 "here" storeHere).2.sessions =
       some { hereSession with last_activity := 9 }) :=
  ⟨(C9_unknown_id_safety 9 "gone" storeHere 4 ucmTwoConns hereSession).1 (by decide),
   (C9_unknown_id_safety 9 "here" storeHere 4 ucmTwoConns hereSession).2.1 (by decide),
   (C9_unknown_id_safety 9 "here" storeHere 4 ucmTwoConns hereSession).2.2 (by decide)⟩

/-- C10: when the queued-message flush that `connect` runs hits a message
whose send to the new connection raises, the flush delivers exactly the
failure-free prefix, does not attempt or requeue the later messages, and
still clears the session's whole pending queue, dropping every unsent
message. -/
theorem C10_flush_failure_drops_rest (fails : Nat → Msg → Bool) (ws : Nat)
    (sid : String) (st : UserConnectionManager) (conns : List Nat)
    (pre post : List Msg) (bad : Msg)
    (hconn : dictGet sid st.user_connections = some conns)
    (hq : dictGet sid st.user_message_queues = some (pre ++ bad :: post))
    (hpre : ∀ m ∈ pre, fails ws m = false) (hbad : fails ws bad = true) :
    (connect fails ws sid st).2 = pre ∧
    dictGet sid (connect fails ws sid st).1.user_message_queues = some [] := by
  have hnn : (dictGet sid st.user_connections).isNone = false := by
    rw [hconn]; rfl
  refine ⟨?_, ?_⟩ <;>
    simp only [connect, sendQueuedMessages, hnn, Bool.false_eq_true, if_false, hq,
      Option.getD_some, dictGet_set_self]
  · exact takeWhile_middle_false _ pre bad post
      (fun x hx => by simp [hpre x hx]) (by simp [hbad])

/-- C10 witness: a queue of three messages where the second send raises:
only the first message is delivered and the queue is cleared. -/
theorem C10_flush_failure_witness :
    dictGet "s" ucmQueuedThree.user_connections = some [3] ∧
    dictGet "s" ucmQueuedThree.user_message_queues =
      some ([⟨"a", "1", some 1⟩] ++ ⟨"b", "2", some 2⟩ :: [⟨"c", "3", some 3⟩]) ∧
    ((connect (fun _ m => m.typ = "b") 9 "s" ucmQueuedThree).2 = [⟨"a", "1", some 1⟩] ∧
     dictGet "s" (connect (fun _ m => m.typ = "b") 9 "s"
       ucmQueuedThree).1.user_message_queues = some []) :=
  ⟨by decide, by decide,
   C10_flush_failure_drops_rest (fun _ m => m.typ = "b") 9 "s" ucmQueuedThree
     [3] [⟨"a", "1", some 1⟩] [⟨"c", "3", some 3⟩] ⟨"b", "2", some 2⟩
     (by decide) (by decide) (by decide) (by decide)⟩

/-- C3: starting a task on a session whose `current_task` is non-null and
not yet done returns the synchronous "already running" rejection, spawns
nothing and emits nothing, and leaves the stored record — in particular
the original task handle — unchanged apart from the activity refresh the
lookups perform. -/
theorem C3_already_running_rejected (now : Int) (query : String)
    (sandboxIdArg : Option Nat) (freshSid : String) (newTaskId : Nat)
    (startDesktop : CUStore → String → CUStore × Bool)
    (connectSandbox : Nat → Option Nat) (bg : Bool) (st : CUStore)
    (sid : String) (s : ComputerUseSession) (d a : Nat) (t : PyTask)
    (hs : dictGet sid st.sessions = some s) (hd : s.desktop = some d)
    (ha : s.agent = some a) (ht : s.current_task = some t)
    (hdone : t.done = false) (hsb : sandboxIdArg = none) :
    (run_computer_use_task now true query (some sid) sandboxIdArg freshSid
        newTaskId startDesktop connectSandbox bg st).result =
      .err "A computer use task is already running in this session" ∧
    (run_computer_use_task now true query (some sid) sandboxIdArg freshSid
        newTaskId startDesktop connectSandbox bg st).spawned = [] ∧
    dictGet sid (run_computer_use_task now true query (some sid) sandboxIdArg
        freshSid newTaskId startDesktop connectSandbox bg st).store.sessions =
      some { s with last_activity := now } := by
  subst hsb
  obtain ⟨sid0, dk, ag, ct, mg, la, sr⟩ := s
  have hd' : dk = some d := hd
  have ha' : ag = some a := ha
  have ht' : ct = some t := ht
  subst hd' ha' ht'
  refine ⟨?_, ?_, ?_⟩ <;>
    simp [run_computer_use_task, cuGetSession, hs, dictGet_set_self, hdone]

/-- C3 witness: the busy store `cuStoreBusy` rejects a second start and the
original task handle `⟨5, false⟩` is still there afterwards. -/
theorem C3_already_running_witness :
    (run_computer_use_task 4 true "q" (some "c1") none "f" 99
        (fun st _ => (st, true)) (fun _ => none) false cuStoreBusy).result =
      .err "A computer use task is already running in this session" ∧
    (run_computer_use_task 4 true "q" (some "c1") none "f" 99
        (fun st _ => (st, true)) (fun _ => none) false cuStoreBusy).spawned = [] ∧
    dictGet "c1" (run_computer_use_task 4 true "q" (some "c1") none "f" 99
        (fun st _ => (st, true)) (fun _ => none) false cuStoreBusy).store.sessions =
      some { cuBusy with last_activity := 4 } :=
  C3_already_running_rejected 4 "q" none "f" 99 (fun st _ => (st, true))
    (fun _ => none) false cuStoreBusy "c1" cuBusy 1 2 ⟨5, false⟩
    (by decide) rfl rfl rfl rfl rfl

/-- C4: however the task body settles — success, unhandled exception, or
cancellation — the task's cleanup path leaves the session stored with
`current_task = None` and `stop_requested = False`; an unhandled exception
is turned into an `error` event addressed to the owning session and is not
re-raised by the task function. -/
theorem C4_task_settlement_cleanup (now : Int) (sid : String)
    (selfTaskId : Nat) (outcome : TaskOutcome) (st : CUStore)
    (s : ComputerUseSession) (a : Nat)
    (hs : dictGet sid st.sessions = some s) (ha : s.agent = some a) :
    (∃ s', dictGet sid
        (run_computer_task_in_background now sid selfTaskId outcome st).1.sessions =
          some s' ∧ s'.current_task = none ∧ s'.stop_requested = false) ∧
    (∀ m, outcome = .exc m →
       (sid, Envelope.mk "error" ("Error in computer task: " ++ m)) ∈
          (run_computer_task_in_background now sid selfTaskId outcome st).2.1 ∧
       (run_computer_task_in_background now sid selfTaskId outcome st).2.2 = none) := by
  obtain ⟨sid0, dk, ag, ct, mg, la, sr⟩ := s
  have ha' : ag = some a := ha
  subst ha'
  refine ⟨?_, ?_⟩
  · cases mg <;> cases outcome <;>
      simp [run_computer_task_in_background, cuGetSession, hs, dictGet_set_self]
  · intro m hm
    subst hm
    cases mg <;>
      simp [run_computer_task_in_background, cuGetSession, hs, dictGet_set_self]

/-- C4 witness: the busy store with a task body that raises; afterwards the
stored record has a cleared task slot and the error event was addressed to
`"c1"`. -/
theorem C4_task_settlement_witness :
    (∃ s', dictGet "c1"
        (run_computer_task_in_background 4 "c1" 5 (.exc "boom") cuStoreBusy).1.sessions =
          some s' ∧ s'.current_task = none ∧ s'.stop_requested = false) ∧
    (∀ m, TaskOutcome.exc "boom" = TaskOutcome.exc m →
       ("c1", Envelope.mk "error" ("Error in computer task: " ++ m)) ∈
          (run_computer_task_in_background 4 "c1" 5 (.exc "boom") cuStoreBusy).2.1 ∧
       (run_computer_task_in_background 4 "c1" 5 (.exc "boom") cuStoreBusy).2.2 = none) :=
  C4_task_settlement_cleanup 4 "c1" 5 (.exc "boom") cuStoreBusy cuBusy 2
    (by decide) rfl

theorem remove_session_found (kf : Bool) {sid : String}
    {st : UserSessionManager} {s : UserSession}
    (hs : dictGet sid st.sessions = some s) :
    remove_session kf sid st =
      ⟨true, { st with sessions := dictDel sid st.sessions }, [sid],
       (UserSession.cleanup_resources kf s).2⟩ := by
  simp [remove_session, hs]

theorem remove_session_store_dictGet (kf : Bool) (x y : String)
    (st : UserSessionManager) :
    dictGet x (remove_session kf y st).store.sessions =
      if x = y then none else dictGet x st.sessions := by
  unfold remove_session
  cases hy : dictGet y st.sessions with
  | none =>
    by_cases hxy : x = y
    · subst hxy
      simp [hy]
    · simp [hxy]
  | some s =>
    by_cases hxy : x = y
    · subst hxy
      simp [dictGet_del_self]
    · simp [hxy, dictGet_del_ne _ hxy]

theorem sweepList_store_dictGet (kf : Bool) (L : List String) (x : String)
    (st : UserSessionManager) :
    dictGet x (sweepList kf L st).1.sessions =
      if x ∈ L then none else dictGet x st.sessions := by
  induction L generalizing st with
  | nil => simp [sweepList]
  | cons a L2 ih =>
    show dictGet x (sweepList kf L2 (remove_session kf a st).store).1.sessions = _
    rw [ih, remove_session_store_dictGet]
    by_cases h1 : x ∈ L2 <;> by_cases h2 : x = a <;>
      simp [h1, h2, List.mem_cons]

theorem sweepList_cleanups_eq (kf : Bool) (L : List String)
    (st : UserSessionManager) (hnd : L.Nodup)
    (hall : ∀ x ∈ L, (dictGet x st.sessions).isSome = true) :
    (sweepList kf L st).2.1 = L := by
  induction L generalizing st with
  | nil => rfl
  | cons a L2 ih =>
    obtain ⟨s, hs⟩ := Option.isSome_iff_exists.mp (hall a (List.mem_cons_self a L2))
    have hnd2 := List.nodup_cons.mp hnd
    have hrest : ∀ x ∈ L2,
        (dictGet x (remove_session kf a st).store.sessions).isSome = true := by
      intro x hx
      have hxa : x ≠ a := fun h => hnd2.1 (h ▸ hx)
      rw [remove_session_store_dictGet]
      simp only [hxa, if_false]
      exact hall x (List.mem_cons_of_mem a hx)
    show (remove_session kf a st).cleanups ++
        (sweepList kf L2 (remove_session kf a st).store).2.1 = a :: L2
    rw [ih _ hnd2.2 hrest, remove_session_found kf hs]
    rfl

/-- C7: one sweep removes from the store every record whose
`last_activity` lies more than the configured timeout in the past and runs
its resource teardown exactly once, while every record within the timeout
is left in the store untouched. -/
theorem C7_expiry_sweep (kf : Bool) (now : Int) (st : UserSessionManager)
    (hnd : (st.sessions.map Prod.fst).Nodup) :
    (∀ sid s, (sid, s) ∈ st.sessions →
       s.is_expired now st.session_timeout = true →
       dictGet sid (cleanup_expired_sessions kf now st).1.sessions = none ∧
       (cleanup_expired_sessions kf now st).2.1.count sid = 1) ∧
    (∀ sid s, (sid, s) ∈ st.sessions →
       s.is_expired now st.session_timeout = false →
       dictGet sid (cleanup_expired_sessions kf now st).1.sessions = some s) := by
  have hLnodup : ((st.sessions.filter
      (fun p => p.2.is_expired now st.session_timeout)).map (fun p => p.1)).Nodup :=
    List.Nodup.sublist (List.Sublist.map _ (List.filter_sublist _)) hnd
  have hall : ∀ x ∈ (st.sessions.filter
      (fun p => p.2.is_expired now st.session_timeout)).map (fun p => p.1),
      (dictGet x st.sessions).isSome = true := by
    intro x hx
    obtain ⟨p, hp, rfl⟩ := List.mem_map.mp hx
    have hpm := (List.mem_filter.mp hp).1
    rw [show p = (p.1, p.2) from rfl] at hpm
    rw [dictGet_eq_some_of_mem hpm hnd]
    rfl
  constructor
  · intro sid s hmem hexp
    have hsidL : sid ∈ (st.sessions.filter
        (fun p => p.2.is_expired now st.session_timeout)).map (fun p => p.1) :=
      List.mem_map.mpr ⟨(sid, s), List.mem_filter.mpr ⟨hmem, hexp⟩, rfl⟩
    constructor
    · rw [show (cleanup_expired_sessions kf now st).1 =
          (sweepList kf _ st).1 from rfl, sweepList_store_dictGet]
      simp [hsidL]
    · rw [show (cleanup_expired_sessions kf now st).2.1 =
          (sweepList kf _ st).2.1 from rfl, sweepList_cleanups_eq _ _ _ hLnodup hall]
      exact List.count_eq_one_of_mem hLnodup hsidL
  · intro sid s hmem hexp
    have hsome : dictGet sid st.sessions = some s := dictGet_eq_some_of_mem hmem hnd
    have hsidL : sid ∉ (st.sessions.filter
        (fun p => p.2.is_expired now st.session_timeout)).map (fun p => p.1) := by
      intro hx
      obtain ⟨p, hp, hfst⟩ := List.mem_map.mp hx
      obtain ⟨hpm, hpe⟩ := List.mem_filter.mp hp
      rw [show p = (p.1, p.2) from rfl, hfst] at hpm
      have : p.2 = s := by
        have := dictGet_eq_some_of_mem hpm hnd
        rw [hsome] at this
        exact (Option.some_inj.mp this).symm
      rw [this, hexp] at hpe
      cases hpe
    rw [show (cleanup_expired_sessions kf now st).1 =
        (sweepList kf _ st).1 from rfl, sweepList_store_dictGet]
    simp [hsidL, hsome]

/-- C7 witness: `storeMixed` at time 100 with timeout 60: session `"old"`
(activity 10) is swept and its teardown ran once; `"new"` (activity 90)
survives untouched. -/
theorem C7_expiry_sweep_witness :
    (("old", oldSession) ∈ storeMixed.sessions ∧
     oldSession.is_expired 100 storeMixed.session_timeout = true ∧
     dictGet "old" (cleanup_expired_sessions false 100 storeMixed).1.sessions = none ∧
     (cleanup_expired_sessions false 100 storeMixed).2.1.count "old" = 1) ∧
    (("new", newSession) ∈ storeMixed.sessions ∧
     newSession.is_expired 100 storeMixed.session_timeout = false ∧
     dictGet "new" (cleanup_expired_sessions false 100 storeMixed).1.sessions =
       some newSession) :=
  ⟨⟨by decide, by decide,
    (C7_expiry_sweep false 100 storeMixed (by decide)).1 "old" oldSession
      (by decide) (by decide)⟩,
   ⟨by decide, by decide,
    (C7_expiry_sweep false 100 storeMixed (by decide)).2 "new" newSession
      (by decide) (by decide)⟩⟩

/-- C8: removing the same present session id twice returns true then
false; the record is gone after the first call even when the sandbox kill
raised (`kf1` arbitrary), and across both calls the sandbox kill was
invoked at most once. -/
theorem C8_teardown_idempotence (kf1 kf2 : Bool) (sid : String)
    (st : UserSessionManager) (s : UserSession)
    (hs : dictGet sid st.sessions = some s) :
    (remove_session kf1 sid st).found = true ∧
    (remove_session kf2 sid (remove_session kf1 sid st).store).found = false ∧
    ((remove_session kf1 sid st).kills ++
      (remove_session kf2 sid (remove_session kf1 sid st).store).kills).length ≤ 1 ∧
    dictGet sid (remove_session kf1 sid st).store.sessions = none := by
  rw [remove_session_found kf1 hs]
  refine ⟨rfl, ?_, ?_, dictGet_del_self _ _⟩
  · simp [remove_session, dictGet_del_self]
  · cases hsb : s.sandbox_instance <;>
      simp [remove_session, dictGet_del_self, UserSession.cleanup_resources, hsb]

/-- C8 witness: removing `"old"` (which owns sandbox `11`) from
`storeMixed` twice, with the kill raising on the first call. -/
theorem C8_teardown_witness :
    (remove_session true "old" storeMixed).found = true ∧
    (remove_session false "old" (remove_session true "old" storeMixed).store).found
      = false ∧
    ((remove_session true "old" storeMixed).kills ++
      (remove_session false "old" (remove_session true "old" storeMixed).store).kills).length
      ≤ 1 ∧
    dictGet "old" (remove_session true "old" storeMixed).store.sessions = none :=
  C8_teardown_idempotence true false "old" storeMixed oldSession (by decide)

end SandboxDemo








